import Mathlib

/-!
Verification development for the coordinate-registration script
`PrimateToPrimate.py` (functions `SquareToSphere`, `Affine_Transform`,
`rescale`).  The embedding models the numpy float arrays as lists of
rationals, and models every Python runtime failure (out-of-range list
index, etc.) as `none` / an `Except.error` value.
-/

/-! ## SquareToSphere (source lines 7-60) -/

/-- Longitude loop of `SquareToSphere` (source lines 42-44):
`longS[i] *= 360 / L; longS[i] += (sulci_long[i] < 0) * 360`.
The wrap test reads the original value, which at that point still equals
the copied value being updated. -/
def projectLong (L : ℚ) (xs : List ℚ) : List ℚ :=
  xs.map (fun x => x * (360 / L) + (if x < 0 then 360 else 0))

/-- One step of a latitude loop of `SquareToSphere` (source lines 46-49 and
55-58): values strictly inside the band are scaled by
`(lat_max - lat_min) / l` and then shifted by the literal constant `30`
(the source adds `30`, not `lat_min`); other values are left unchanged. -/
def projectLatAt (lat_min lat_max l y : ℚ) : ℚ :=
  if lat_min < y ∧ y < lat_max then y * ((lat_max - lat_min) / l) + 30 else y

/-- A latitude loop of `SquareToSphere` run for indices `0,...,n-1` only,
leaving later entries as the untouched copies; reading index `i ≥ length`
is a Python `IndexError`, modelled as `none`.  (For species 1 the loop
bound `n` is the latitude count; for species 2 the source sets the bound
from the longitude list, see `SquareToSphere`.) -/
def projectLatUpTo (lat_min lat_max l : ℚ) (n : ℕ) (ys : List ℚ) : Option (List ℚ) :=
  if n ≤ ys.length then
    some ((ys.take n).map (projectLatAt lat_min lat_max l) ++ ys.drop n)
  else none

/-- Result record of `SquareToSphere`, mirroring the four returned arrays. -/
structure SphereCoords where
  longS_P1 : List ℚ
  latS_P1 : List ℚ
  longS_P2 : List ℚ
  latS_P2 : List ℚ
deriving DecidableEq, Repr

/-- `SquareToSphere(dimP1, dimP2, sulciP1, sulciP2, lat_sphere)`
(source lines 7-60).  `dim* = (L, l)`, `sulci* = (longitudes, latitudes)`.
Loop bounds are taken exactly as in the source (lines 25-28): in
particular line 28 sets the species-2 latitude loop bound
`Nlat_P2 = len(sulciP2[0])` from the *longitude* list, so species-2
latitudes beyond that bound are not rescaled, and if the longitude list is
longer than the latitude list the loop raises (modelled as `none`). -/
def SquareToSphere (dimP1 dimP2 : ℚ × ℚ) (sulciP1 sulciP2 : List ℚ × List ℚ)
    (lat_sphere : ℚ × ℚ) : Option SphereCoords :=
  let Nlat_P2 := sulciP2.1.length
  let lat_min := lat_sphere.1
  let lat_max := lat_sphere.2
  match projectLatUpTo lat_min lat_max dimP2.2 Nlat_P2 sulciP2.2 with
  | none => none
  | some latS2 =>
      some ⟨projectLong dimP1.1 sulciP1.1,
            sulciP1.2.map (projectLatAt lat_min lat_max dimP1.2),
            projectLong dimP2.1 sulciP2.1,
            latS2⟩

/-! ## Affine_Transform (source lines 63-105) -/

/-- Result record of `Affine_Transform`: the two lists of `(a, b)` rows. -/
structure AffineTransforms where
  long_transform : List (ℚ × ℚ)
  lat_transform : List (ℚ × ℚ)
deriving DecidableEq, Repr

/-- Body of the longitude interior loop (source lines 97-99), producing row
`i`:  `a = (longP2[i+1] - longP2[i]) / (longP1[i+1] - longP1[i])`,
`b = longP2[i] - longP1[i] * a`; any out-of-range index is `none`. -/
def interiorRow (p1 p2 : List ℚ) (i : ℕ) : Option (ℚ × ℚ) :=
  match p2.get? (i + 1), p2.get? i, p1.get? (i + 1), p1.get? i with
  | some a2, some b2, some a1, some b1 =>
      some ((a2 - b2) / (a1 - b1), b2 - b1 * ((a2 - b2) / (a1 - b1)))
  | _, _, _, _ => none

/-- `Affine_Transform(sulciP1, sulciP2, long_corr, lat_corr)` (source
lines 63-105).  Fancy indexing `sulciP1[0][long_corr[:,0]]` etc. (lines
88-91) is an elementwise lookup failing on any bad index.  Row 0 of each
output (lines 94-95) divides the *first entries of the coordinate lists*
(`sulciP2[0][0] / sulciP1[0][0]`), needs both lists nonempty and at least
one row allocated (`Nlong ≥ 1`, `Nlat ≥ 1`).  The longitude loop (lines
97-99) runs `i = 1,...,Nlong-1` and reads index `i+1`, so its last
iteration reads index `Nlong`, out of range.  The latitude loop (lines
101-103) contains the expression `latP1[1][i]`, an index into a scalar:
it raises on its first iteration, i.e. whenever `Nlat ≥ 2`. -/
def Affine_Transform (sulciP1 sulciP2 : List ℚ × List ℚ)
    (long_corr lat_corr : List (ℕ × ℕ)) : Option AffineTransforms :=
  let Nlong := long_corr.length
  let Nlat := lat_corr.length
  match (long_corr.map Prod.fst).mapM sulciP1.1.get?,
        (lat_corr.map Prod.fst).mapM sulciP1.2.get?,
        (long_corr.map Prod.snd).mapM sulciP2.1.get?,
        (lat_corr.map Prod.snd).mapM sulciP2.2.get? with
  | some longP1, some _latP1, some longP2, some _latP2 =>
      match sulciP1.1.get? 0, sulciP2.1.get? 0, sulciP1.2.get? 0, sulciP2.2.get? 0 with
      | some s10, some s20, some t10, some t20 =>
          if Nlong = 0 ∨ Nlat = 0 then none
          else
            match (List.range (Nlong - 1)).mapM
                (fun k => interiorRow longP1 longP2 (k + 1)) with
            | some longRest =>
                if 2 ≤ Nlat then none
                else some ⟨(s20 / s10, 0) :: longRest, [(t20 / t10, 0)]⟩
            | none => none
      | _, _, _, _ => none
  | _, _, _, _ => none

/-! ## rescale (source lines 108-139) -/

/-- Error taxonomy for `rescale`: the assertion on line 121, and the
unconditional numpy failure on line 124. -/
inductive RescaleError where
  | SegmentCountMismatch
  | TypeError
deriving DecidableEq, Repr

/-- `rescale(sulci, affine, intervals)` (source lines 108-139).  The
assertion on line 121 is the `SegmentCountMismatch` failure and is
evaluated first.  Every call that passes it then executes line 124,
`new_intervals = np.concatenate([0], intervals)`, which passes `[0]` (a
list holding a zero-dimensional array, which numpy can never concatenate)
as the array-sequence argument and `intervals` as the `axis` argument:
numpy rejects this call unconditionally, so line 124 raises (modelled as
`TypeError`) for every input, and the sweep on lines 125-137 is
unreachable dead code.  `rescale` therefore never returns an output
list. -/
def rescale (sulci : List ℚ) (affine : List (ℚ × ℚ)) (intervals : List ℚ) :
    Except RescaleError (List ℚ) :=
  if affine.length ≠ intervals.length + 1 then
    Except.error RescaleError.SegmentCountMismatch
  else
    Except.error RescaleError.TypeError

/-! ## Theorems about the claims -/

/-- **C6**: for every rectangle longitude length `L > 0`, each rectangle
longitude `x` is mapped to `x * 360 / L`, with `360` added exactly when the
original `x` was negative; in particular every `x` with `0 ≤ x < L` lands
in `[0, 360)`. -/
theorem projectLong_correct (L : ℚ) (hL : 0 < L) (xs : List ℚ) :
    projectLong L xs =
      xs.map (fun x => if x < 0 then x * 360 / L + 360 else x * 360 / L) ∧
    ∀ x ∈ xs, 0 ≤ x → x < L → 0 ≤ x * 360 / L ∧ x * 360 / L < 360 := by
  constructor
  · unfold projectLong
    congr 1
    funext x
    by_cases hx : x < 0
    · rw [if_pos hx, if_pos hx]
      ring
    · rw [if_neg hx, if_neg hx]
      ring
  · intro x _ hx0 hxL
    constructor
    · exact div_nonneg (by positivity) hL.le
    · rw [div_lt_iff₀ hL]
      nlinarith

/-- Witness for `projectLong_correct` at `L = 100`, `xs = [25, -30]`. -/
theorem projectLong_correct_witness :
    (0 : ℚ) < 100 ∧
    (projectLong 100 [25, -30] =
        [(25 : ℚ), -30].map
          (fun x => if x < 0 then x * 360 / 100 + 360 else x * 360 / 100) ∧
      ∀ x ∈ [(25 : ℚ), -30], 0 ≤ x → x < 100 →
        0 ≤ x * 360 / 100 ∧ x * 360 / 100 < 360) :=
  ⟨by norm_num, projectLong_correct 100 (by norm_num) [25, -30]⟩

/-- **C7, counterexample**: with the non-default band `[40, 140]` and
latitude length `100`, the in-band latitude `50` is mapped to
`50 * (140 - 40) / 100 + 30 = 80`, not to the claimed
`50 * (140 - 40) / 100 + band_min = 90`: the offset added by the source is
the literal `30`, not `band_min`. -/
theorem projectLatAt_band_min_cex :
    SquareToSphere (100, 100) (100, 100) ([], [50]) ([], []) (40, 140) =
        some ⟨[], [80], [], []⟩ ∧
      (50 * ((140 - 40) / 100 : ℚ) + 40 = 90) ∧ (80 : ℚ) ≠ 90 :=
  ⟨by norm_num [SquareToSphere, projectLatUpTo, projectLong, projectLatAt],
    by norm_num, by norm_num⟩

/-- **C7, amended**: latitudes strictly inside the band are mapped to
`y * (band_max - band_min) / l + 30` (the hardcoded constant `30`, which
coincides with `band_min` only for the default band `[30, 150]`), and
latitudes at or outside the band are returned unchanged. -/
theorem projectLatAt_amended (band_min band_max l y : ℚ) (_hl : 0 < l) :
    (band_min < y → y < band_max →
      projectLatAt band_min band_max l y = y * (band_max - band_min) / l + 30) ∧
    (y ≤ band_min ∨ band_max ≤ y → projectLatAt band_min band_max l y = y) := by
  constructor
  · intro h1 h2
    unfold projectLatAt
    rw [if_pos ⟨h1, h2⟩]
    ring
  · intro h
    unfold projectLatAt
    rw [if_neg]
    rcases h with h | h
    · exact fun hc => absurd hc.1 (not_lt.mpr h)
    · exact fun hc => absurd hc.2 (not_lt.mpr h)

/-- Witness for `projectLatAt_amended` at the default band `[30, 150]`,
`l = 100`, `y = 50`. -/
theorem projectLatAt_amended_witness :
    (0 : ℚ) < 100 ∧
    (((30 : ℚ) < 50 → (50 : ℚ) < 150 →
        projectLatAt 30 150 100 50 = 50 * (150 - 30) / 100 + 30) ∧
      ((50 : ℚ) ≤ 30 ∨ (150 : ℚ) ≤ 50 → projectLatAt 30 150 100 50 = 50)) :=
  ⟨by norm_num, projectLatAt_amended 30 150 100 50 (by norm_num)⟩

/-- **C8**: with identical inputs for both species (no longitudes, one
latitude `50`, dimensions `(100, 100)`, default band), the species-1
latitude is rescaled to `90` but the species-2 latitude is returned
unchanged as `50`: line 28 of the source sizes the species-2 latitude loop
by the *longitude* list (`Nlat_P2 = len(sulciP2[0]) = 0`), so the
projection is not applied identically to both species. -/
theorem SquareToSphere_species_divergence :
    SquareToSphere (100, 100) (100, 100) ([], [50]) ([], [50]) (30, 150) =
        some ⟨[], [90], [], [50]⟩ ∧ [(90 : ℚ)] ≠ [(50 : ℚ)] :=
  ⟨by norm_num [SquareToSphere, projectLatUpTo, projectLong, projectLatAt],
    by norm_num⟩

/-- **C4**: on two strictly increasing anchors `(10, 30)`, `(40, 90)` (the
correspondences pick both coordinates of each species list), the builder
does not return a transform at all: its interior loop runs
`i = 1, ..., Nlong - 1` but reads anchor index `i + 1`, so the final
iteration reads index `Nlong`, out of range — a Python `IndexError`
(modelled as `none`) for every sequence of at least two anchors. -/
theorem Affine_interior_out_of_bounds :
    Affine_Transform ([10, 40], [7]) ([30, 90], [7]) [(0, 0), (1, 1)] [(0, 0)] =
        none ∧
      ((10 : ℚ) < 40 ∧ (30 : ℚ) < 90) :=
  ⟨by norm_num [Affine_Transform, interiorRow, List.mapM, List.mapM.loop,
      List.range, List.range.loop],
    by norm_num⟩

/-- **C5**: for `N = 1` anchor (the only anchor count on which the builder
returns at all), the returned longitude transform has exactly `N = 1`
segment — the source allocates `np.zeros((Nlong, 2))` — not the claimed
`N + 1 = 2` segments, and there is no tail segment. -/
theorem Affine_segment_count_bug :
    Affine_Transform ([10, 40], [7]) ([30, 90], [7]) [(0, 0)] [(0, 0)] =
        some ⟨[(3, 0)], [(1, 0)]⟩ ∧
      ([((3 : ℚ), (0 : ℚ))].length ≠ 1 + 1) :=
  ⟨by norm_num [Affine_Transform, interiorRow, List.mapM, List.mapM.loop,
      List.range, List.range.loop],
    by norm_num⟩

/-- **C3, counterexample**: with species-1 longitudes `[1, 10]`, species-2
longitudes `[2, 30]` and the single longitude correspondence `(1, 1)`, the
first (and only) anchor is `(10, 30)`, so the claim predicts a first
segment of scale `30 / 10 = 3`; the source (line 94) instead divides the
first *coordinate-list entries*, `sulciP2[0][0] / sulciP1[0][0] = 2 / 1`,
giving scale `2`. -/
theorem Affine_first_segment_cex :
    Affine_Transform ([1, 10], [7]) ([2, 30], [7]) [(1, 1)] [(0, 0)] =
        some ⟨[(2, 0)], [(1, 0)]⟩ ∧
      ((30 : ℚ) / 10 = 3) ∧ ((2 : ℚ) ≠ 3) :=
  ⟨by norm_num [Affine_Transform, interiorRow, List.mapM, List.mapM.loop,
      List.range, List.range.loop],
    by norm_num, by norm_num⟩

/-- **C1**: the texture value `25`, with boundaries `[10, 40]` and the
segment `(scale, offset) = (2, 10)` on `[10, 40)`, is not rescaled to the
claimed `25 * 2 + 10 = 60` — or to anything: the call passes the line-121
length check and then raises unconditionally at line 124
(`np.concatenate([0], intervals)`), producing no transformed value. -/
theorem rescale_no_rescaled_value :
    rescale [25] [(3, 0), (2, 10), (1, 0)] [10, 40] =
        Except.error RescaleError.TypeError ∧
      ((25 : ℚ) * 2 + 10 = 60) :=
  ⟨by norm_num [rescale], by norm_num⟩

/-- **C2**: the operation is not total and performs no per-value
half-open-interval selection at all.  With boundaries `[10, 40]` and
segments `[(3, 0), (2, 10), (7, 1)]`, both the unsorted input `[25, 5]`
and the sorted in-range input `[5, 7]` pass the length check and then
raise at line 124 before any segment is selected, returning no output for
any input. -/
theorem rescale_not_total :
    rescale [25, 5] [(3, 0), (2, 10), (7, 1)] [10, 40] =
        Except.error RescaleError.TypeError ∧
      rescale [5, 7] [(3, 0), (2, 10), (7, 1)] [10, 40] =
        Except.error RescaleError.TypeError :=
  ⟨by norm_num [rescale], by norm_num [rescale]⟩

/-- **C3, amended**: whenever the builder returns at all, its first
longitude segment is `(b / a, 0)` where `a`, `b` are the *first entries of
the species coordinate lists* (source line 94: `sulciP2[0][0] /
sulciP1[0][0]`), and likewise `(d / c, 0)` for the latitudes (line 95);
this coincides with the first anchor's `coord2 / coord1` exactly when the
first correspondence pair indexes position 0 for both species. -/
theorem Affine_first_segment_amended (a b c d : ℚ) (s1 s2 l1 l2 : List ℚ)
    (lc tc : List (ℕ × ℕ)) (r : AffineTransforms)
    (h : Affine_Transform (a :: s1, c :: l1) (b :: s2, d :: l2) lc tc = some r) :
    (∃ rest, r.long_transform = (b / a, 0) :: rest) ∧
      r.lat_transform = [(d / c, 0)] := by
  simp only [Affine_Transform, List.get?_cons_zero] at h
  split at h
  · split at h
    · exact absurd h (by simp)
    · split at h
      · split at h
        · exact absurd h (by simp)
        · simp only [Option.some.injEq] at h
          subst h
          exact ⟨⟨_, rfl⟩, rfl⟩
      · exact absurd h (by simp)
  · exact absurd h (by simp)

/-- Witness for `Affine_first_segment_amended` on the single-anchor input
with first coordinate entries `10 ↦ 30`: the first segment is
`(30 / 10, 0) = (3, 0)`, so a value below the first anchor, such as `5`,
is mapped by that segment to `5 * 3 + 0 = 15`. -/
theorem Affine_first_segment_amended_witness :
    Affine_Transform ([10], [7]) ([30], [7]) [(0, 0)] [(0, 0)] =
        some ⟨[(3, 0)], [(1, 0)]⟩ ∧
      ((∃ rest, (AffineTransforms.mk [(3, 0)] [(1, 0)]).long_transform =
          ((30 : ℚ) / 10, 0) :: rest) ∧
        (AffineTransforms.mk [(3, 0)] [(1, 0)]).lat_transform =
          [((7 : ℚ) / 7, 0)]) ∧
      (5 * ((30 : ℚ) / 10) + 0 = 15) :=
  ⟨by norm_num [Affine_Transform, interiorRow, List.mapM, List.mapM.loop,
      List.range, List.range.loop],
    Affine_first_segment_amended 10 30 7 7 [] [] [] [] [(0, 0)] [(0, 0)]
      ⟨[(3, 0)], [(1, 0)]⟩
      (by norm_num [Affine_Transform, interiorRow, List.mapM, List.mapM.loop,
        List.range, List.range.loop]),
    by norm_num⟩

/-- **C9**: `rescale` fails with `SegmentCountMismatch` exactly when the
segment count differs from the boundary count plus one (the assertion on
source line 121, checked before anything else), and on any such failure no
output list is produced. -/
theorem rescale_SegmentCountMismatch_iff (sulci : List ℚ)
    (affine : List (ℚ × ℚ)) (intervals : List ℚ) :
    (rescale sulci affine intervals =
        Except.error RescaleError.SegmentCountMismatch ↔
      affine.length ≠ intervals.length + 1) ∧
    (affine.length ≠ intervals.length + 1 →
      ∀ out, rescale sulci affine intervals ≠ Except.ok out) := by
  unfold rescale
  by_cases hlen : affine.length ≠ intervals.length + 1
  · rw [if_pos hlen]
    exact ⟨⟨fun _ => hlen, fun _ => rfl⟩, fun _ out hc => Except.noConfusion hc⟩
  · rw [if_neg hlen]
    refine ⟨⟨fun hc => ?_, fun hc => absurd hc hlen⟩, fun hc => absurd hc hlen⟩
    exact absurd hc (by simp)

/-- Witness for `rescale_SegmentCountMismatch_iff`: one segment against
one boundary (needing two segments) is rejected. -/
theorem rescale_SegmentCountMismatch_iff_witness :
    rescale [1] [(2, 3)] [10] = Except.error RescaleError.SegmentCountMismatch :=
  ((rescale_SegmentCountMismatch_iff [1] [(2, 3)] [10]).1).mpr (by norm_num)

/-- **C10**: for every input — in particular every input accepted by the
line-121 length check — `rescale` produces no output value whatsoever:
each call ends in the `SegmentCountMismatch` assertion failure or in the
unconditional line-124 `TypeError`.  The segment-selecting sweep of lines
126-137 that the claim describes is unreachable dead code, so there are no
produced output values to be determined by segment choice. -/
theorem rescale_never_produces_output :
    ∀ (sulci : List ℚ) (affine : List (ℚ × ℚ)) (intervals : List ℚ),
      rescale sulci affine intervals =
          Except.error RescaleError.SegmentCountMismatch ∨
        rescale sulci affine intervals = Except.error RescaleError.TypeError := by
  intro sulci affine intervals
  unfold rescale
  by_cases hlen : affine.length ≠ intervals.length + 1
  · rw [if_pos hlen]
    exact Or.inl rfl
  · rw [if_neg hlen]
    exact Or.inr rfl
